import Mathlib

/-!
Shallow embedding of the resource-synchronization core of the `hi_canvas`
package (files `canvas_rubric.py` and `canvas_assignment.py`), together with
proofs of the frozen claims about it.

Modelling conventions, used throughout:
* JSON values (what Python's `json.load` / `response.json()` produce) are the
  inductive type `JValue`.  Python dicts are ordered association lists with
  unique keys; numbers are either `int` (`JValue.int`) or `float`
  (`JValue.num`, modelled exactly as a rational — the claims never exercise
  float rounding).
* The HTTP gateway is a pure collaborator: each remote call is represented by
  the `HttpResponse` the server would return, passed in as an argument, and
  the requests the code would issue are collected in the result.
* `logging.*` calls are collected as `(LogLevel, message)` pairs; `print`
  calls (console output) are not modelled.
* A Python function that can raise is embedded as `Except String _` or as a
  result record whose `outcome` is `.raised msg`; the message records which
  exception Python would raise.
* Module-level environment configuration (institution URL, course id, API
  token) is abstracted as fixed constants, as the spec treats it as injected
  configuration.
-/

/-- A JSON value as produced by Python's `json` module.  Objects are ordered
association lists (Python dicts preserve insertion order, keys are unique). -/
inductive JValue where
  | null
  | bool (b : Bool)
  | int (n : Int)
  | num (q : Rat)
  | str (s : String)
  | arr (items : List JValue)
  | obj (fields : List (String × JValue))

/-- Lookup of a key in a Python dict (association list). -/
def dictLookup (d : List (String × JValue)) (k : String) : Option JValue :=
  (d.find? (fun kv => kv.1 == k)).map (fun kv => kv.2)

/-- Python's `k in d` membership test on a dict. -/
def dictContains (d : List (String × JValue)) (k : String) : Bool :=
  (dictLookup d k).isSome

/-- Python's `d[k] = v` on a dict: overwrite in place if the key exists,
append otherwise. -/
def dictSet (d : List (String × JValue)) (k : String) (v : JValue) :
    List (String × JValue) :=
  if (dictLookup d k).isSome then
    d.map (fun kv => if kv.1 == k then (k, v) else kv)
  else
    d ++ [(k, v)]

/-- Python truthiness of a JSON value (`if x:`). -/
def pyTruthyJ : JValue → Bool
  | .null => false
  | .bool b => b
  | .int n => n != 0
  | .num q => q != 0
  | .str s => !s.isEmpty
  | .arr l => !l.isEmpty
  | .obj l => !l.isEmpty

/-- Python truthiness of a `dict.get` result (`None` is falsy). -/
def pyTruthyOpt : Option JValue → Bool
  | none => false
  | some v => pyTruthyJ v

/-- Python's `str()` rendering of a JSON value, as used inside f-strings.
Scalar cases are exact; `float`, list and dict rendering is abstracted with
placeholders (no claim depends on rendering a container or a float). -/
def pyStr : JValue → String
  | .null => "None"
  | .bool true => "True"
  | .bool false => "False"
  | .int n => toString n
  | .num _ => "<float>"
  | .str s => s
  | .arr _ => "<list>"
  | .obj _ => "<dict>"

/-- `str()` of a `dict.get` result (`str(None) = "None"`). -/
def pyStrOpt : Option JValue → String
  | none => "None"
  | some v => pyStr v

/-- Python's `float(x)` on a JSON value.  Ints, floats and bools convert;
other values raise.  (Python would also parse numeric strings; the grading
templates written and read by this code store numbers, so string parsing is
not modelled and conservatively raises here.) -/
def pyFloat : JValue → Except String Rat
  | .int n => .ok n
  | .num q => .ok q
  | .bool true => .ok 1
  | .bool false => .ok 0
  | _ => .error "TypeError: float() argument"

/-- Log levels of Python's `logging` module as used by the code. -/
inductive LogLevel where
  | info
  | warning
  | error
deriving DecidableEq

/-- An HTTP response as seen by the code: status code, `response.text`,
`response.json()`, and the `Link` header when the server sent one. -/
structure HttpResponse where
  status : Nat
  text : String
  body : JValue
  linkHeader : Option String

/- ------------------------------------------------------------------ -/
/- Rubric Engine: `canvas_rubric.validate_rubric`                      -/
/- ------------------------------------------------------------------ -/

/-- An error-class validation message (the source prefixes it with `❌ `). -/
def errM (s : String) : String := "❌ " ++ s

/-- A warning-class validation message (the source prefixes it with `⚠️ `). -/
def warnM (s : String) : String := "⚠️ " ++ s

/-- First character of a message; the source distinguishes message classes
only by this leading symbol. -/
def msgHead (m : String) : Option Char := m.data.head?

/-- A message is error-class when it starts with the `❌` symbol. -/
def errorClass (m : String) : Bool := msgHead m == some '❌'

/-- A message is warning-class when it starts with the `⚠` symbol
(the source's `⚠️` is `⚠` followed by a variation selector). -/
def warnClass (m : String) : Bool := msgHead m == some '⚠'

def msgMissingTitle : String := errM "Rubric is missing 'title' field."

def msgMissingTotal : String := errM "Rubric is missing 'total_points' field."

def msgMissingCriteria : String := errM "Rubric is missing 'criteria' section."

def msgMissingCritDesc : String := errM "Missing 'description' in criterion."

def msgMissingRatings (cdesc : String) : String :=
  errM ("Missing 'ratings' in criterion: " ++ cdesc)

def msgMissingPoints (cdesc rid : String) : String :=
  errM ("Missing 'points' in: " ++ cdesc ++ " #" ++ rid)

def msgPointsNotInt (cdesc rid : String) : String :=
  errM ("'points' must be an integer: " ++ cdesc ++ " #" ++ rid)

def msgMissingRatingDesc (cdesc rid : String) : String :=
  errM ("Missing 'description' in: " ++ cdesc ++ " #" ++ rid)

def msgMissingLongDesc (cdesc rid : String) : String :=
  warnM ("Missing 'long_description' in: " ++ cdesc ++ " #" ++ rid)

def msgValid : String := "✅ Rubric is valid and sums to expected points."

/-- Python's `total_points != expected_total` where `total_points` is an int
and `expected_total` is the JSON value of the rubric's `total_points` field
(numeric comparison for numbers, unconditionally unequal otherwise). -/
def pyNeqInt (total : Int) (expected : JValue) : Bool :=
  match expected with
  | .int m => total != m
  | .num q => (total : Rat) != q
  | .bool true => total != 1
  | .bool false => total != 0
  | _ => true

def msgTotalMismatch (total : Int) (expected : JValue) : String :=
  warnM ("Total points sum to " ++ toString total ++ ", but should be " ++
    pyStr expected ++ ".")

/-- The messages produced for one rating, and the rating's integer points
when present and well-typed (`validate_rubric`, inner `for` body). -/
def ratingMessages (cdesc rid : String) (rating : List (String × JValue)) :
    List String × Option Int :=
  let pointsPart : List String × Option Int :=
    match dictLookup rating "points" with
    | none => ([msgMissingPoints cdesc rid], none)
    | some (.int n) => ([], some n)
    | some _ => ([msgPointsNotInt cdesc rid], none)
  let descMsgs : List String :=
    if dictContains rating "description" then [] else [msgMissingRatingDesc cdesc rid]
  let longMsgs : List String :=
    if dictContains rating "long_description" then [] else [msgMissingLongDesc cdesc rid]
  (pointsPart.1 ++ descMsgs ++ longMsgs, pointsPart.2)

/-- The loop over `criterion["ratings"].items()`: accumulates messages and the
running `max_points` (second argument, started at `0` by the caller).
A rating that is not a dict would make Python raise on the `in` test. -/
def ratingsLoop (cdesc : String) :
    List (String × JValue) → Int → Except String (List String × Int)
  | [], maxPoints => .ok ([], maxPoints)
  | (rid, rating) :: rest, maxPoints =>
    match rating with
    | .obj rfields =>
      let step := ratingMessages cdesc rid rfields
      let maxPoints' := match step.2 with
        | some n => max maxPoints n
        | none => maxPoints
      match ratingsLoop cdesc rest maxPoints' with
      | .ok (msgs, m) => .ok (step.1 ++ msgs, m)
      | .error e => .error e
    | _ => .error "TypeError: rating is not a dict"

/-- The body of the loop over `rubric_data["criteria"]` for one criterion:
its messages and its contribution to the running total (`max_points`, which
starts at `0`, so a criterion never contributes negatively; a criterion
without a `ratings` dict contributes nothing, i.e. `0`). -/
def criterionMessages (criterion : JValue) : Except String (List String × Int) :=
  match criterion with
  | .obj fields =>
    let descMsgs : List String :=
      if dictContains fields "description" then [] else [msgMissingCritDesc]
    let cdesc := pyStr ((dictLookup fields "description").getD (.str "Unknown"))
    match dictLookup fields "ratings" with
    | none => .ok (descMsgs ++ [msgMissingRatings cdesc], 0)
    | some (.obj ratings) =>
      match ratingsLoop cdesc ratings 0 with
      | .ok (msgs, maxPoints) => .ok (descMsgs ++ msgs, maxPoints)
      | .error e => .error e
    | some _ => .error "AttributeError: ratings has no items()"
  | _ => .error "TypeError: criterion is not a dict"

/-- The loop over all criteria: concatenated messages and summed total. -/
def criteriaLoop : List JValue → Except String (List String × Int)
  | [] => .ok ([], 0)
  | c :: rest =>
    match criterionMessages c with
    | .error e => .error e
    | .ok (msgs, maxPoints) =>
      match criteriaLoop rest with
      | .ok (msgs', total) => .ok (msgs ++ msgs', maxPoints + total)
      | .error e => .error e

/-- The messages of the two leading field checks of `validate_rubric`
(missing `title`, then missing `total_points`). -/
def baseMsgs (rubricData : List (String × JValue)) : List String :=
  (if dictContains rubricData "title" then [] else [msgMissingTitle]) ++
  (if dictContains rubricData "total_points" then [] else [msgMissingTotal])

/-- The message of the final sum check of `validate_rubric`: emitted when a
`total_points` field was present (`expected_total is not None`) and differs
from the summed criterion maxima. -/
def mismatchMsgs (expectedTotal : Option JValue) (totalPoints : Int) : List String :=
  match expectedTotal with
  | some v => if pyNeqInt totalPoints v then [msgTotalMismatch totalPoints v] else []
  | none => []

/-- `canvas_rubric.validate_rubric`: returns `(ok, messages)`.  The source
accumulates error- and warning-class messages in one `errors` list, returns
`(False, errors)` whenever that list is nonempty, and stops early right after
appending the message for a missing `criteria` section. -/
def validateRubric (rubricData : List (String × JValue)) :
    Except String (Bool × List String) :=
  match dictLookup rubricData "criteria" with
  | none => .ok (false, baseMsgs rubricData ++ [msgMissingCriteria])
  | some (.arr criteria) =>
    match criteriaLoop criteria with
    | .error e => .error e
    | .ok (critMsgs, totalPoints) =>
      let errors := baseMsgs rubricData ++ critMsgs ++
        mismatchMsgs (dictLookup rubricData "total_points") totalPoints
      if errors.isEmpty then .ok (true, [msgValid]) else .ok (false, errors)
  | some _ => .error "TypeError: criteria is not iterable as a list"

/- ------------------------------------------------------------------ -/
/- Environment configuration (abstracted as fixed constants)           -/
/- ------------------------------------------------------------------ -/

def INSTITUTION_URL : String := "https://institution.example"

def API_VERSION : String := "v1"

def COURSE_ID : String := "1001"

def ASSIGNMENTS_URL : String :=
  INSTITUTION_URL ++ "/api/" ++ API_VERSION ++ "/courses/" ++ COURSE_ID ++ "/assignments"

/- ------------------------------------------------------------------ -/
/- Resource Synchronizer: `canvas_assignment.add_assignment` and       -/
/- `canvas_assignment.get_single_assignment`                           -/
/- ------------------------------------------------------------------ -/

/-- A request the synchronizer issues against the remote service. -/
inductive UpsertRequest where
  | fetch (assignmentId : JValue)
  | update (assignmentId : JValue) (payload : JValue)
  | create (payload : JValue)

/-- Whether a request mutates remote state (PUT update or POST create). -/
def UpsertRequest.isWrite : UpsertRequest → Bool
  | .fetch _ => false
  | .update _ _ => true
  | .create _ => true

/-- How a call ended: a normal `return`, or an uncaught Python exception. -/
inductive Outcome where
  | returned
  | raised (msg : String)

/-- Observable behaviour of one `add_assignment` call: the remote requests it
issued in order, the log records it emitted, and how it ended. -/
structure UpsertResult where
  requests : List UpsertRequest
  logs : List (LogLevel × String)
  outcome : Outcome

/-- `canvas_assignment.get_single_assignment`: a GET of the assignment by id;
any non-200 status raises, otherwise the parsed JSON body is returned. -/
def get_single_assignment (assignmentId : JValue) (resp : HttpResponse) :
    Except String JValue :=
  if resp.status == 200 then .ok resp.body
  else
    .error ("Failed to retrieve assignment ID " ++ pyStr assignmentId ++ ": " ++
      toString resp.status ++ " - " ++ resp.text)

/-- The create branch of `add_assignment` (reached when the descriptor has no
id, or when the fetched record is falsy): one POST; 201 logs success (reading
the new id from the response body), anything else raises. -/
def createBranch (name : Option JValue) (payload : JValue) (postResp : HttpResponse)
    (reqs0 : List UpsertRequest) (logs0 : List (LogLevel × String)) : UpsertResult :=
  let reqs := reqs0 ++ [UpsertRequest.create payload]
  if postResp.status == 201 then
    match postResp.body with
    | .obj fields =>
      { requests := reqs
        logs := logs0 ++ [(LogLevel.info,
          "Assignment '" ++ pyStrOpt name ++ "' created successfully with ID: " ++
          pyStrOpt (dictLookup fields "id"))]
        outcome := .returned }
    | _ => { requests := reqs, logs := logs0
             outcome := .raised "AttributeError: response body has no get" }
  else
    { requests := reqs, logs := logs0
      outcome := .raised ("Failed to create assignment '" ++ pyStrOpt name ++ "': " ++
        toString postResp.status ++ " - " ++ postResp.text) }

/-- `canvas_assignment.add_assignment`: create or update an assignment.
`fetchResp`, `putResp`, `postResp` are the responses the remote service would
give to the GET-by-id, the PUT update and the POST create respectively (each
consulted only if the corresponding request is actually issued). -/
def add_assignment (assignment : List (String × JValue)) (groupId : Option JValue)
    (fetchResp putResp postResp : HttpResponse) : UpsertResult :=
  let assignment' :=
    if pyTruthyOpt groupId then dictSet assignment "assignment_group_id" (groupId.getD .null)
    else assignment
  let payload := JValue.obj [("assignment", .obj assignment')]
  let assignmentId := dictLookup assignment' "id"
  let name := dictLookup assignment' "name"
  if pyTruthyOpt assignmentId then
    let idv := assignmentId.getD .null
    match get_single_assignment idv fetchResp with
    | .error e => { requests := [.fetch idv], logs := [], outcome := .raised e }
    | .ok existing =>
      if pyTruthyJ existing then
        match existing with
        | .obj efields =>
          if pyTruthyOpt (dictLookup efields "published") then
            { requests := [.fetch idv]
              logs := [(LogLevel.error,
                "Assignment '" ++ pyStrOpt name ++ "' is already published. Aborting...")]
              outcome := .returned }
          else
            let logs1 := [(LogLevel.info,
              "Assignment '" ++ pyStrOpt name ++ "' exists. Updating assignment...")]
            let reqs := [UpsertRequest.fetch idv, UpsertRequest.update idv payload]
            if putResp.status == 200 then
              { requests := reqs
                logs := logs1 ++ [(LogLevel.info,
                  "Assignment '" ++ pyStrOpt name ++ "' updated successfully.")]
                outcome := .returned }
            else
              { requests := reqs, logs := logs1
                outcome := .raised ("Failed to update assignment '" ++ pyStrOpt name ++
                  "': " ++ toString putResp.status ++ " - " ++ putResp.text) }
        | _ =>
          { requests := [.fetch idv], logs := []
            outcome := .raised "AttributeError: assignment record has no get" }
      else
        createBranch name payload postResp [.fetch idv]
          [(LogLevel.error,
            "Assignment '" ++ pyStrOpt name ++ "' with ID '" ++ pyStr idv ++
            "' cannot be found. Creating a new assignment...")]
  else
    createBranch name payload postResp [] []

/- ------------------------------------------------------------------ -/
/- Paginator: `canvas_assignment.get_submissions`                      -/
/- ------------------------------------------------------------------ -/

/-- Python's `s.split(c)` for a one-character separator (`Link` header split
on commas): every occurrence separates, `""` splits to `[""]`. -/
def pySplitCharAux (c : Char) : List Char → List Char → List String
  | [], acc => [String.mk acc.reverse]
  | x :: xs, acc =>
    if x == c then String.mk acc.reverse :: pySplitCharAux c xs []
    else pySplitCharAux c xs (x :: acc)

def pySplitChar (s : String) (c : Char) : List String :=
  pySplitCharAux c s.data []

/-- Substring containment over character lists (Python's `sub in s`). -/
def hasSubstr (hay sub : List Char) : Bool :=
  match hay with
  | [] => sub.isEmpty
  | _ :: t => if sub.isPrefixOf hay then true else hasSubstr t sub

/-- Python's `sub in s` for strings. -/
def strContains (s sub : String) : Bool := hasSubstr s.data sub.data

/-- Python's `s.find(c)` for a one-character needle: first index, `-1` if
absent. -/
def pyFindChar (s : String) (c : Char) : Int :=
  match s.data.findIdx? (fun x => x == c) with
  | some i => (i : Int)
  | none => -1

/-- Python's `s[a:b]` slice with possibly negative bounds. -/
def pySlice (s : String) (a b : Int) : String :=
  let n := s.data.length
  let clamp : Int → Nat := fun i =>
    if i < 0 then ((n : Int) + i).toNat else min i.toNat n
  let st := clamp a
  let en := clamp b
  String.mk ((s.data.drop st).take (en - st))

/-- The loop over the comma-separated `Link` header parts: the first part
containing the literal `rel="next"` yields the text between its first `<`
and its first `>` (then the source `break`s). -/
def nextPageUrl : List String → Option String
  | [] => none
  | link :: rest =>
    if strContains link "rel=\"next\"" then
      some (pySlice link (pyFindChar link '<' + 1) (pyFindChar link '>'))
    else nextPageUrl rest

/-- The next-page URL the source derives from a response: `None` when there
is no `Link` header, otherwise the first `rel="next"` target. -/
def nextUrlOf (r : HttpResponse) : Option String :=
  match r.linkHeader with
  | none => none
  | some h => nextPageUrl (pySplitChar h ',')

/-- The `while submissions_url:` loop of `canvas_assignment.get_submissions`,
one constructor step per iteration.  `server` maps a URL to the response the
remote service would give; the result pairs the accumulated submissions with
the number of GETs performed.  The fuel argument only bounds the number of
iterations (the Python loop would simply keep running; every claim supplies
enough fuel). -/
def getSubmissionsLoop (server : String → HttpResponse) (assignmentId : Int) :
    Nat → Option String → Except String (List JValue × Nat)
  | _, none => .ok ([], 0)
  | 0, some _ => .error "out of fuel"
  | fuel + 1, some url =>
    if url.isEmpty then .ok ([], 0)
    else
      let response := server url
      if response.status == 200 then
        match response.body with
        | .arr data =>
          match getSubmissionsLoop server assignmentId fuel (nextUrlOf response) with
          | .ok (rest, k) => .ok (data ++ rest, k + 1)
          | .error e => .error e
        | _ => .error "TypeError: response body is not a list"
      else
        .error ("Failed to retrieve submissions for assignment " ++
          toString assignmentId ++ ": " ++ toString response.status ++ " - " ++
          response.text)

/-- `canvas_assignment.get_submissions`: walk the paginated submission
collection starting from the course's submissions URL. -/
def get_submissions (server : String → HttpResponse) (assignmentId : Int)
    (startUrl : String) (fuel : Nat) : Except String (List JValue × Nat) :=
  getSubmissionsLoop server assignmentId fuel (some startUrl)

/-- The items of a page body (defined when the body is a JSON list). -/
def arrItems : JValue → List JValue
  | .arr l => l
  | _ => []

/-- Is the body a JSON list? -/
def isArrB : JValue → Bool
  | .arr _ => true
  | _ => false

/-- A well-formed page chain under `server`: every URL is nonempty, answers
200 with a list body, links to the next URL in the chain via `rel="next"`,
and the last page has no `next` relation. -/
def chainB (server : String → HttpResponse) : List String → Bool
  | [] => true
  | u :: rest =>
    !u.isEmpty && (server u).status == 200 && isArrB (server u).body &&
    (match rest with
     | [] => nextUrlOf (server u) == none
     | v :: _ => nextUrlOf (server u) == some v) &&
    chainB server rest

/- ------------------------------------------------------------------ -/
/- Attachment Materializer:                                            -/
/- `canvas_assignment.save_submissions_with_attachments` and           -/
/- `canvas_assignment.download_attachment`                             -/
/- ------------------------------------------------------------------ -/

/-- A filesystem side effect of materialization.  Invoking the notebook
renderer (`convert_ipynb_to_md`, the spec's external DocumentRenderer) is
recorded as a `render` effect rather than modelled internally. -/
inductive FsEffect where
  | mkdir (path : String)
  | writeFile (path : String)
  | render (source : String) (outputName : String)

/-- Observable behaviour of processing submissions: filesystem effects in
order, and log records. -/
structure SubResult where
  effects : List FsEffect
  logs : List (LogLevel × String)

/-- Python's `os.path.join` for the relative components this code builds. -/
def pathJoin (a b : String) : String := a ++ "/" ++ b

/-- Python's `s.endswith(suffix)`. -/
def pyEndsWith (s suffix : String) : Bool := suffix.data.isSuffixOf s.data

/-- `canvas_assignment.download_attachment`: GET the file; on 200 write it to
`savePath` and log, otherwise log an error (no write). -/
def download_attachment (download : String → HttpResponse) (fileUrl savePath : String) :
    List FsEffect × List (LogLevel × String) :=
  let response := download fileUrl
  if response.status == 200 then
    ([FsEffect.writeFile savePath], [(LogLevel.info, "Downloaded file to " ++ savePath)])
  else
    ([], [(LogLevel.error, "Failed to download file from " ++ fileUrl ++ ": " ++
      toString response.status ++ " - " ++ response.text)])

/-- Python `submission.get(key) == lit` for a string literal (`!=` is its
negation): true only when the key is present with exactly that string. -/
def pyEqStrOpt (v : Option JValue) (lit : String) : Bool :=
  match v with
  | some (.str s) => s == lit
  | _ => false

/-- The loop over one submission's `attachments`.  `created` accumulates the
directories made earlier in this loop, so `os.path.exists` sees them. -/
def processAttachments (download : String → HttpResponse) (dirExists : String → Bool)
    (folderPath userName : String) :
    List JValue → List String → Except String SubResult
  | [], _ => .ok { effects := [], logs := [] }
  | attachment :: rest, created =>
    match attachment with
    | .obj afields =>
      let fileNameE : Except String String :=
        match dictLookup afields "display_name" with
        | none => .ok "unknown_file"
        | some (.str s) => .ok s
        | some _ => .error "TypeError: display_name is not a string"
      match fileNameE with
      | .error e => .error e
      | .ok fileName =>
        match dictLookup afields "url" with
        | some (.str u) =>
          if u.isEmpty then processAttachments download dirExists folderPath userName rest created
          else
            let userFolder := pathJoin folderPath userName
            let mkEffs : List FsEffect :=
              if dirExists userFolder || created.contains userFolder then []
              else [FsEffect.mkdir userFolder]
            let savePath := pathJoin userFolder fileName
            let dl := download_attachment download u savePath
            let rEffs : List FsEffect :=
              if pyEndsWith fileName ".ipynb" then [FsEffect.render savePath "assignment.md"]
              else []
            match processAttachments download dirExists folderPath userName rest
                (userFolder :: created) with
            | .ok r => .ok { effects := mkEffs ++ dl.1 ++ rEffs ++ r.effects
                             logs := dl.2 ++ r.logs }
            | .error e => .error e
        | some v =>
          if pyTruthyJ v then .error "TypeError: url is not a string"
          else processAttachments download dirExists folderPath userName rest created
        | none => processAttachments download dirExists folderPath userName rest created
    | _ => .error "AttributeError: attachment has no get"

/-- The body of the `for submission in submissions` loop of
`save_submissions_with_attachments` for one submission: skip (with an info
log) unless `workflow_state` is exactly `"submitted"`; otherwise download
every attachment into the per-student directory. -/
def processSubmission (download : String → HttpResponse) (dirExists : String → Bool)
    (folderPath : String) (submission : List (String × JValue)) :
    Except String SubResult :=
  if !pyEqStrOpt (dictLookup submission "workflow_state") "submitted" then
    .ok { effects := []
          logs := [(LogLevel.info,
            "Skipping user ID " ++ pyStrOpt (dictLookup submission "user_id") ++
            " as they have not submitted.")] }
  else
    let userId := dictLookup submission "user_id"
    let userNameE : Except String String :=
      match dictLookup submission "user" with
      | none => .ok ("User_" ++ pyStrOpt userId)
      | some (.obj ufields) =>
        match dictLookup ufields "name" with
        | none => .ok ("User_" ++ pyStrOpt userId)
        | some (.str s) => .ok s
        | some _ => .error "TypeError: user name is not a string"
      | some _ => .error "AttributeError: user has no get"
    match userNameE with
    | .error e => .error e
    | .ok userName =>
      match dictLookup submission "attachments" with
      | none =>
        .ok { effects := []
              logs := [(LogLevel.info,
                "No attachments found for submission by " ++ userName ++ ".")] }
      | some (.arr attachments) =>
        if attachments.isEmpty then
          .ok { effects := []
                logs := [(LogLevel.info,
                  "No attachments found for submission by " ++ userName ++ ".")] }
        else processAttachments download dirExists folderPath userName attachments []
      | some _ => .error "TypeError: attachments is not a list"

/-- The directories created by a list of effects. -/
def createdDirs (effs : List FsEffect) : List String :=
  effs.filterMap (fun e => match e with
    | .mkdir p => some p
    | _ => none)

/-- `canvas_assignment.save_submissions_with_attachments` restricted to its
per-submission loop (the initial creation of the destination root and the
paginated retrieval are modelled separately): processes each submission in
order, threading the set of directories created so far. -/
def save_submissions_with_attachments (download : String → HttpResponse)
    (dirExists : String → Bool) (folderPath : String) :
    List (List (String × JValue)) → Except String SubResult
  | [] => .ok { effects := [], logs := [] }
  | s :: rest =>
    match processSubmission download dirExists folderPath s with
    | .error e => .error e
    | .ok r =>
      match save_submissions_with_attachments download
          (fun p => dirExists p || (createdDirs r.effects).contains p) folderPath rest with
      | .ok r' => .ok { effects := r.effects ++ r'.effects, logs := r.logs ++ r'.logs }
      | .error e => .error e

/- ------------------------------------------------------------------ -/
/- Rubric Engine, grading side:                                        -/
/- `canvas_assignment.upload_graded_rubric`                            -/
/- ------------------------------------------------------------------ -/

/-- A query-parameter value of the grade-submission request. -/
inductive QPVal where
  | int (n : Int)
  | num (q : Rat)
  | str (s : String)

/-- Observable behaviour of one `upload_graded_rubric` call: the PUT requests
issued (URL with their query parameters), the log records, and how it ended. -/
structure UploadResult where
  requests : List (String × List (String × QPVal))
  logs : List (LogLevel × String)
  outcome : Outcome

/-- Python's `s.strip()` restricted to ASCII whitespace (the comments this
code strips are ordinary text; wider Unicode whitespace is not modelled). -/
def pyIsSpace (c : Char) : Bool :=
  c == ' ' || c == '\t' || c == '\n' || c == '\r' || c == '\x0b' || c == '\x0c'

def pyStrip (s : String) : String :=
  String.mk (((s.data.dropWhile pyIsSpace).reverse.dropWhile pyIsSpace).reverse)

/-- Python float rendering, abstracted (only ever logged, never compared). -/
def pyFloatRepr (q : Rat) : String := toString q.num

/-- `total_score = sum(float(criterion["score"]) for criterion in
graded_rubric if "score" in criterion)`: entries without a `score` key are
filtered out of the generator, not counted as zero. -/
def computeTotalScore : List JValue → Except String Rat
  | [] => .ok 0
  | c :: rest =>
    match c with
    | .obj fields =>
      match dictLookup fields "score" with
      | none => computeTotalScore rest
      | some v =>
        match pyFloat v with
        | .ok q =>
          match computeTotalScore rest with
          | .ok t => .ok (q + t)
          | .error e => .error e
        | .error e => .error e
    | _ => .error "TypeError: criterion is not a dict"

/-- The query parameters one criterion contributes: always its `[points]`
parameter, plus a `[comments]` parameter only when a `comment` key is present
and nonempty after stripping (Python calls `.strip()` on it, so a non-string
comment raises). -/
def criterionQueryParams (cid : JValue) (fields : List (String × JValue)) (q : Rat) :
    Except String (List (String × QPVal)) :=
  let pointsParam := [("rubric_assessment[" ++ pyStr cid ++ "][points]", QPVal.num q)]
  match dictLookup fields "comment" with
  | some (.str s) =>
    if (pyStrip s).isEmpty then .ok pointsParam
    else .ok (pointsParam ++
      [("rubric_assessment[" ++ pyStr cid ++ "][comments]", QPVal.str s)])
  | some _ => .error "AttributeError: comment has no strip"
  | none => .ok pointsParam

/-- The `for criterion in graded_rubric` loop building the per-criterion
query parameters: reads `criterion_id` and `score` unconditionally (a missing
key is Python's `KeyError`). -/
def buildCriterionParams : List JValue → Except String (List (String × QPVal))
  | [] => .ok []
  | c :: rest =>
    match c with
    | .obj fields =>
      match dictLookup fields "criterion_id" with
      | none => .error "KeyError: 'criterion_id'"
      | some cid =>
        match dictLookup fields "score" with
        | none => .error "KeyError: 'score'"
        | some sv =>
          match pyFloat sv with
          | .error e => .error e
          | .ok q =>
            match criterionQueryParams cid fields q with
            | .error e => .error e
            | .ok params =>
              match buildCriterionParams rest with
              | .ok rest' => .ok (params ++ rest')
              | .error e => .error e
    | _ => .error "TypeError: criterion is not a dict"

/-- The grading endpoint URL built by `upload_graded_rubric`. -/
def gradingUrl (assignmentId studentId : Int) : String :=
  INSTITUTION_URL ++ "/api/" ++ API_VERSION ++ "/courses/" ++ COURSE_ID ++
  "/assignments/" ++ toString assignmentId ++ "/submissions/" ++ toString studentId

/-- `canvas_assignment.upload_graded_rubric`.  `file` is the content of the
graded-rubric JSON file at `gradedRubricPath` (`none` when the file does not
exist); `putResp` is the response the remote service would give to the PUT.
The source sums the total first, then builds the per-criterion parameters,
then issues a single PUT; an HTTP failure is logged, not raised.  (The two
informational logs printed before the PUT render the parameter dict; that
rendering is abstracted.) -/
def upload_graded_rubric (file : Option JValue) (studentId assignmentId : Int)
    (gradedRubricPath : String) (putResp : HttpResponse) : UploadResult :=
  match file with
  | none =>
    { requests := []
      logs := [(LogLevel.warning,
        "⚠️ Graded rubric not found for student " ++ toString studentId ++ ".")]
      outcome := .returned }
  | some (.arr gradedRubric) =>
    match computeTotalScore gradedRubric with
    | .error e => { requests := [], logs := [], outcome := .raised e }
    | .ok totalScore =>
      match buildCriterionParams gradedRubric with
      | .error e => { requests := [], logs := [], outcome := .raised e }
      | .ok criterionParams =>
        let queryParams :=
          [("rubric_assessment[user_id]", QPVal.int studentId),
           ("rubric_assessment[assessment_type]", QPVal.str "grading"),
           ("submission[posted_grade]", QPVal.num totalScore)] ++ criterionParams
        let url := gradingUrl assignmentId studentId
        let logs0 :=
          [(LogLevel.info, "🔍 Sending request to: " ++ url),
           (LogLevel.info, "📤 Query Parameters: <params>")]
        if putResp.status == 200 then
          { requests := [(url, queryParams)]
            logs := logs0 ++ [(LogLevel.info,
              "✅ Successfully uploaded graded rubric for student " ++
              toString studentId ++ ". Final grade: " ++ pyFloatRepr totalScore)]
            outcome := .returned }
        else
          { requests := [(url, queryParams)]
            logs := logs0 ++ [(LogLevel.error,
              "❌ Failed to upload rubric for student " ++ toString studentId ++
              ": " ++ toString putResp.status ++ " - " ++ putResp.text)]
            outcome := .returned }
  | some _ => { requests := [], logs := [], outcome := .raised "TypeError: not iterable" }

/- ------------------------------------------------------------------ -/
/- Message classification and concrete fixtures                        -/
/- ------------------------------------------------------------------ -/

/-- A message of either reported class (error `❌` or warning `⚠️`). -/
def errish (m : String) : Bool := errorClass m || warnClass m

/-- A rubric document whose two criteria have rating maxima 10 and 15 but
whose stated `total_points` is 20 (so the sum check emits a warning). -/
def exC1 : List (String × JValue) :=
  [("title", .str "Demo"),
   ("total_points", .int 20),
   ("criteria", .arr [
      .obj [("description", .str "Crit A"),
            ("ratings", .obj [
               ("r1", .obj [("points", .int 10), ("description", .str "full"),
                            ("long_description", .str "x")]),
               ("r2", .obj [("points", .int 0), ("description", .str "none"),
                            ("long_description", .str "y")])])],
      .obj [("description", .str "Crit B"),
            ("ratings", .obj [
               ("r1", .obj [("points", .int 15), ("description", .str "full"),
                            ("long_description", .str "x")])])]])]

/-- A rubric document with `title` and `total_points` but no `criteria`. -/
def exC7doc : List (String × JValue) :=
  [("title", .str "T"), ("total_points", .int 10)]

/-- A criterion whose only (valid, integer-pointed) rating is negative. -/
def exNegCriterion : JValue :=
  .obj [("description", .str "Neg"),
        ("ratings", .obj [
           ("r1", .obj [("points", .int (-5)), ("description", .str "d"),
                        ("long_description", .str "l")])])]

/-- A placeholder response for a write request that is never issued. -/
def respUnused : HttpResponse := { status := 0, text := "", body := .null, linkHeader := none }

/-- A not-found response to the identity-based fetch. -/
def resp404 : HttpResponse := { status := 404, text := "not found", body := .null, linkHeader := none }

/-- A plain 200 response with no interesting body. -/
def resp200ok : HttpResponse := { status := 200, text := "", body := .null, linkHeader := none }

/-- A 200 fetch response whose record is published (`locked`). -/
def respPublished : HttpResponse :=
  { status := 200, text := "", body := .obj [("published", .bool true)], linkHeader := none }

/-- A descriptor carrying a remote identity. -/
def exAssignment : List (String × JValue) := [("id", .int 5), ("name", .str "HW")]

/-- A graded (not `submitted`) submission that does carry an attachment. -/
def gradedSubmission : List (String × JValue) :=
  [("workflow_state", .str "graded"),
   ("user_id", .int 7),
   ("user", .obj [("name", .str "Alice")]),
   ("attachments", .arr [
      .obj [("display_name", .str "hw.pdf"), ("url", .str "https://files.example/1")]])]

/-- A download function that always succeeds. -/
def demoDownload : String → HttpResponse :=
  fun _ => { status := 200, text := "", body := .null, linkHeader := none }

/-- A filesystem with no pre-existing directories. -/
def noDirs : String → Bool := fun _ => false

def demoUrl1 : String :=
  INSTITUTION_URL ++ "/api/v1/courses/1001/assignments/5/submissions"

def demoUrl2 : String := INSTITUTION_URL ++ "/page2"

/-- A two-page server: page 1 links to page 2 via `rel="next"` (and also
carries a decoy `rel="first"` relation); page 2 only has `rel="prev"`. -/
def demoServer : String → HttpResponse := fun url =>
  if url == demoUrl1 then
    { status := 200, text := "", body := .arr [.int 1, .int 2],
      linkHeader := some ("<" ++ demoUrl2 ++ ">; rel=\"next\", <" ++ demoUrl1 ++
        ">; rel=\"first\"") }
  else if url == demoUrl2 then
    { status := 200, text := "", body := .arr [.int 3],
      linkHeader := some ("<" ++ demoUrl1 ++ ">; rel=\"prev\"") }
  else
    { status := 404, text := "nf", body := .null, linkHeader := none }

/-- A filled grading-template entry with the given criterion id and score. -/
def entryScore (cid : String) (n : Int) : JValue :=
  .obj [("criterion_id", .str cid), ("criterion_name", .str cid),
        ("max_points", .int 10), ("score", .int n), ("comment", .str "")]

/-- The fields of a template entry that has no `score` key at all. -/
def entryNoScoreFields : List (String × JValue) :=
  [("criterion_id", .str "c4"), ("criterion_name", .str "c4"),
   ("max_points", .int 10), ("comment", .str "")]

def entryNoScore : JValue := .obj entryNoScoreFields

/-- Template entries graded 4, 0 and 5. -/
def exThree : List JValue := [entryScore "c1" 4, entryScore "c2" 0, entryScore "c3" 5]

/-- The per-criterion query parameters built from `exThree`. -/
def exThreeParams : List (String × QPVal) :=
  [("rubric_assessment[c1][points]", QPVal.num 4),
   ("rubric_assessment[c2][points]", QPVal.num 0),
   ("rubric_assessment[c3][points]", QPVal.num 5)]

/- ------------------------------------------------------------------ -/
/- Helper lemmas (shared)                                              -/
/- ------------------------------------------------------------------ -/

/-- Every `errM` message is error- or warning-class. -/
theorem errish_errM (s : String) : errish (errM s) = true := rfl

/-- Every `warnM` message is error- or warning-class. -/
theorem errish_warnM (s : String) : errish (warnM s) = true := rfl

/-- The two leading field checks only produce `❌`/`⚠️`-prefixed messages. -/
theorem errish_baseMsgs (d : List (String × JValue)) :
    ∀ m ∈ baseMsgs d, errish m = true := by
  intro m hm
  unfold baseMsgs at hm
  rcases List.mem_append.mp hm with hm | hm <;>
    split at hm <;> simp_all <;> exact errish_errM _

/-- The sum check only produces a `⚠️`-prefixed message. -/
theorem errish_mismatchMsgs (o : Option JValue) (t : Int) :
    ∀ m ∈ mismatchMsgs o t, errish m = true := by
  intro m hm
  rcases o with _ | v
  · simp [mismatchMsgs] at hm
  · by_cases hp : pyNeqInt t v = true
    · simp [mismatchMsgs, hp] at hm
      subst hm; exact errish_warnM _
    · simp [mismatchMsgs, hp] at hm

/-- Every message a single rating check produces is `❌`/`⚠️`-prefixed. -/
theorem ratingMessages_errish (cdesc rid : String) (rating : List (String × JValue)) :
    ∀ m ∈ (ratingMessages cdesc rid rating).1, errish m = true := by
  intro m hm
  unfold ratingMessages at hm
  split at hm <;> (try split at hm) <;> (try split at hm) <;> (try split at hm) <;>
    simp only [List.mem_append, List.mem_singleton, List.not_mem_nil, or_false,
      false_or, List.nil_append, List.append_nil] at hm <;>
    (try rcases hm with hm | hm) <;> (try rcases hm with hm | hm) <;>
    first
      | exact hm.elim
      | (subst hm; exact errish_errM _)
      | (subst hm; exact errish_warnM _)
      | exact errish_errM _
      | exact errish_warnM _

/-- The rating loop only emits `❌`/`⚠️`-prefixed messages, and its running
maximum never decreases below its starting value. -/
theorem ratingsLoop_ok (cdesc : String) :
    ∀ (l : List (String × JValue)) (a : Int) (msgs : List String) (mp : Int),
      ratingsLoop cdesc l a = .ok (msgs, mp) →
      (∀ m ∈ msgs, errish m = true) ∧ a ≤ mp := by
  intro l
  induction l with
  | nil =>
    intro a msgs mp h
    simp [ratingsLoop] at h
    obtain ⟨h1, h2⟩ := h
    subst h1; subst h2
    exact ⟨by simp, le_refl _⟩
  | cons kv rest ih =>
    intro a msgs mp h
    obtain ⟨rid, rating⟩ := kv
    cases rating with
    | obj rfields =>
      rw [ratingsLoop] at h
      rcases hr : ratingsLoop cdesc rest
          (match (ratingMessages cdesc rid rfields).2 with
           | some n => max a n
           | none => a) with e | p
      · rw [hr] at h; simp at h
      · rw [hr] at h
        obtain ⟨msgs', mp'⟩ := p
        simp at h
        obtain ⟨h1, h2⟩ := h
        subst h1; subst h2
        have hrec := ih _ _ _ hr
        constructor
        · intro m hm
          rcases List.mem_append.mp hm with hm | hm
          · exact ratingMessages_errish cdesc rid rfields m hm
          · exact hrec.1 m hm
        · refine le_trans ?_ hrec.2
          rcases (ratingMessages cdesc rid rfields).2 with _ | n
          · simp
          · simp [le_max_left]
    | null => simp [ratingsLoop] at h
    | bool b => simp [ratingsLoop] at h
    | int n => simp [ratingsLoop] at h
    | num q => simp [ratingsLoop] at h
    | str s => simp [ratingsLoop] at h
    | arr l2 => simp [ratingsLoop] at h

/-- One criterion's check only emits `❌`/`⚠️`-prefixed messages, and its
contribution to the running total is nonnegative. -/
theorem criterionMessages_ok (c : JValue) (msgs : List String) (pts : Int)
    (h : criterionMessages c = .ok (msgs, pts)) :
    (∀ m ∈ msgs, errish m = true) ∧ 0 ≤ pts := by
  cases c with
  | obj fields =>
    rw [criterionMessages] at h
    rcases hr : dictLookup fields "ratings" with _ | v
    · rw [hr] at h
      simp at h
      obtain ⟨h1, h2⟩ := h
      subst h1; subst h2
      refine ⟨?_, le_refl _⟩
      intro m hm
      rcases List.mem_append.mp hm with hm | hm
      · split at hm <;> simp_all
        exact errish_errM _
      · simp at hm; subst hm; exact errish_errM _
    · rw [hr] at h
      cases v with
      | obj ratings =>
        dsimp only at h
        rcases hl : ratingsLoop (pyStr ((dictLookup fields "description").getD
            (.str "Unknown"))) ratings 0 with e | p
        · rw [hl] at h; simp at h
        · rw [hl] at h
          obtain ⟨msgs', mp'⟩ := p
          simp at h
          obtain ⟨h1, h2⟩ := h
          subst h1; subst h2
          have hrec := ratingsLoop_ok _ ratings 0 msgs' mp' hl
          refine ⟨?_, hrec.2⟩
          intro m hm
          rcases List.mem_append.mp hm with hm | hm
          · split at hm <;> simp_all
            exact errish_errM _
          · exact hrec.1 m hm
      | null => simp at h
      | bool b => simp at h
      | int n => simp at h
      | num q => simp at h
      | str s => simp at h
      | arr l2 => simp at h
  | null => simp [criterionMessages] at h
  | bool b => simp [criterionMessages] at h
  | int n => simp [criterionMessages] at h
  | num q => simp [criterionMessages] at h
  | str s => simp [criterionMessages] at h
  | arr l2 => simp [criterionMessages] at h

/-- The criteria loop only emits `❌`/`⚠️`-prefixed messages. -/
theorem criteriaLoop_ok :
    ∀ (l : List JValue) (msgs : List String) (t : Int),
      criteriaLoop l = .ok (msgs, t) → ∀ m ∈ msgs, errish m = true := by
  intro l
  induction l with
  | nil =>
    intro msgs t h
    simp [criteriaLoop] at h
    obtain ⟨h1, h2⟩ := h
    subst h1
    simp
  | cons c rest ih =>
    intro msgs t h
    rw [criteriaLoop] at h
    rcases hc : criterionMessages c with e | p
    · rw [hc] at h; simp at h
    · rw [hc] at h
      obtain ⟨cmsgs, cpts⟩ := p
      rcases hr : criteriaLoop rest with e | p'
      · rw [hr] at h; simp at h
      · rw [hr] at h
        obtain ⟨rmsgs, rt⟩ := p'
        simp at h
        obtain ⟨h1, h2⟩ := h
        subst h1
        intro m hm
        rcases List.mem_append.mp hm with hm | hm
        · exact (criterionMessages_ok c cmsgs cpts hc).1 m hm
        · exact ih rmsgs rt hr m hm

/-- A successful `validate_rubric` run either validated (true with the single
success message) or failed with a nonempty list of `❌`/`⚠️` messages. -/
theorem validateRubric_cases (d : List (String × JValue)) (ok : Bool) (msgs : List String)
    (h : validateRubric d = .ok (ok, msgs)) :
    (ok = true ∧ msgs = [msgValid]) ∨
    (ok = false ∧ msgs ≠ [] ∧ ∀ m ∈ msgs, errish m = true) := by
  rw [validateRubric] at h
  rcases hc : dictLookup d "criteria" with _ | v
  · rw [hc] at h
    simp only [Except.ok.injEq, Prod.mk.injEq] at h
    obtain ⟨h1, h2⟩ := h
    subst h1
    right
    refine ⟨rfl, ?_, ?_⟩
    · subst h2; simp
    · subst h2
      intro m hm
      rcases List.mem_append.mp hm with hm | hm
      · exact errish_baseMsgs d m hm
      · simp at hm; subst hm; exact errish_errM _
  · rw [hc] at h
    cases v with
    | arr criteria =>
      dsimp only at h
      rcases hl : criteriaLoop criteria with e | p
      · rw [hl] at h; simp at h
      · rw [hl] at h
        obtain ⟨critMsgs, totalPoints⟩ := p
        dsimp only at h
        split at h
        · simp only [Except.ok.injEq, Prod.mk.injEq] at h
          obtain ⟨h1, h2⟩ := h
          subst h1; subst h2
          left; exact ⟨rfl, rfl⟩
        · rename_i he
          simp only [Except.ok.injEq, Prod.mk.injEq] at h
          obtain ⟨h1, h2⟩ := h
          subst h1; subst h2
          right
          refine ⟨rfl, ?_, ?_⟩
          · intro hnil
            rw [hnil] at he
            simp at he
          · intro m hm
            rcases List.mem_append.mp hm with hm | hm
            · rcases List.mem_append.mp hm with hm | hm
              · exact errish_baseMsgs d m hm
              · exact criteriaLoop_ok criteria critMsgs totalPoints hl m hm
            · exact errish_mismatchMsgs _ _ m hm
    | null => simp at h
    | bool b => simp at h
    | int n => simp at h
    | num q => simp at h
    | str s => simp at h
    | obj o => simp at h

/-- Lookup after overwriting a different key is unchanged (map form). -/
theorem dictLookup_map_set (k k2 : String) (v : JValue) (h : k ≠ k2) :
    ∀ d : List (String × JValue),
      dictLookup (d.map (fun kv => if kv.1 == k2 then (k2, v) else kv)) k =
        dictLookup d k
  | [] => rfl
  | kv :: rest => by
    have ih := dictLookup_map_set k k2 v h rest
    unfold dictLookup at ih ⊢
    simp only [List.map_cons]
    by_cases hkk : (kv.1 == k2) = true
    · rw [if_pos hkk]
      have hk2k : (k2 == k) = false := by
        simp only [beq_eq_false_iff_ne]
        exact Ne.symm h
      have hkvk : (kv.1 == k) = false := by
        simp only [beq_eq_false_iff_ne]
        rw [beq_iff_eq] at hkk
        rw [hkk]
        exact Ne.symm h
      simp only [List.find?, hk2k, hkvk]
      exact ih
    · rw [if_neg hkk]
      by_cases hkvk : (kv.1 == k) = true
      · simp only [List.find?, hkvk]
      · simp only [List.find?, Bool.not_eq_true] at hkvk ⊢
        simp only [List.find?, hkvk]
        exact ih

/-- Setting one dict key does not change the lookup of a different key. -/
theorem dictLookup_dictSet_ne (d : List (String × JValue)) (k k2 : String) (v : JValue)
    (h : k ≠ k2) : dictLookup (dictSet d k2 v) k = dictLookup d k := by
  unfold dictSet
  split
  · exact dictLookup_map_set k k2 v h d
  · unfold dictLookup
    rw [List.find?_append]
    have hk2k : (k2 == k) = false := by
      simp only [beq_eq_false_iff_ne]
      exact Ne.symm h
    have hnone : List.find? (fun kv => kv.1 == k) [(k2, v)] = none := by
      simp only [List.find?, hk2k]
    rw [hnone]
    cases List.find? (fun kv => kv.1 == k) d <;> rfl

/-- The pagination loop stops immediately once the next-page locator is gone,
whatever fuel remains (the Python `while` condition is simply false). -/
theorem getSubmissionsLoop_none (server : String → HttpResponse) (assignmentId : Int)
    (fuel : Nat) : getSubmissionsLoop server assignmentId fuel none = .ok ([], 0) := by
  cases fuel <;> rfl

/- ------------------------------------------------------------------ -/
/- Claim theorems                                                      -/
/- ------------------------------------------------------------------ -/

/-- Claim C1, counterexample: on a rubric whose criteria maxima sum to 25 but
whose stated `total_points` is 20, `validate_rubric` produces only the
total-points warning (no error-class message) and yet returns `ok = false`,
refuting "warnings never flip `ok`". -/
theorem validate_warning_flips_ok_cex :
    validateRubric exC1 =
      .ok (false, ["⚠️ Total points sum to 25, but should be 20."]) ∧
    errorClass "⚠️ Total points sum to 25, but should be 20." = false ∧
    warnClass "⚠️ Total points sum to 25, but should be 20." = true :=
  ⟨rfl, rfl, rfl⟩

/-- Claim C1 (amended): `validate_rubric` returns `ok = true` iff no message
of either class was produced — warning-class messages (total-points mismatch,
missing `long_description`) also flip `ok` to false, because the source keeps
errors and warnings in one `errors` list and fails on any nonempty list. -/
theorem validate_ok_iff_no_messages (d : List (String × JValue)) (ok : Bool)
    (msgs : List String) (h : validateRubric d = .ok (ok, msgs)) :
    ok = true ↔ msgs.all (fun m => !(errorClass m) && !(warnClass m)) = true := by
  rcases validateRubric_cases d ok msgs h with ⟨h1, h2⟩ | ⟨h1, h2, h3⟩
  · subst h1; subst h2
    decide
  · subst h1
    constructor
    · intro hcontra; exact absurd hcontra (by simp)
    · intro hall
      exfalso
      rcases msgs with _ | ⟨m0, rest⟩
      · exact h2 rfl
      · have hb := h3 m0 (List.mem_cons_self m0 rest)
        have := List.all_eq_true.mp hall m0 (List.mem_cons_self m0 rest)
        unfold errish at hb
        rcases Bool.or_eq_true_iff.mp hb with hb | hb <;> simp [hb] at this

/-- Claim C1 witness: the amended theorem applied to the mismatch rubric. -/
theorem validate_ok_iff_no_messages_witness :
    (false = true ↔
      (["⚠️ Total points sum to 25, but should be 20."].all
        (fun m => !(errorClass m) && !(warnClass m))) = true) :=
  validate_ok_iff_no_messages exC1 false _ rfl

/-- Claim C2 (code bug): a descriptor carrying identity 123 whose
identity-based fetch answers 404 makes `add_assignment` propagate the
exception raised inside `get_single_assignment`: the upsert ends in a raised
outcome having issued only the read — no create request and no log — instead
of logging and falling through to create as both the spec and the source's
own "cannot be found. Creating a new assignment..." branch intend. -/
theorem add_assignment_raises_on_failed_fetch :
    add_assignment [("id", .int 123), ("name", .str "HW1")] none resp404 respUnused respUnused =
      { requests := [.fetch (.int 123)], logs := []
        outcome := .raised "Failed to retrieve assignment ID 123: 404 - not found" } := rfl

/-- Claim C3 (amended): during materialization a submission's attachments are
downloaded only when its workflow state is exactly `submitted`; every other
state — including `graded` — is skipped with a single informational log and
zero filesystem effects. -/
theorem materialize_only_submitted :
    (∀ (download : String → HttpResponse) (dirExists : String → Bool)
        (folderPath : String) (submission : List (String × JValue)),
       pyEqStrOpt (dictLookup submission "workflow_state") "submitted" = false →
       processSubmission download dirExists folderPath submission =
         .ok { effects := []
               logs := [(LogLevel.info,
                 "Skipping user ID " ++ pyStrOpt (dictLookup submission "user_id") ++
                 " as they have not submitted.")] })
    ∧ (∀ (download : String → HttpResponse) (dirExists : String → Bool)
        (folderPath : String) (submission : List (String × JValue)) (r : SubResult),
       processSubmission download dirExists folderPath submission = .ok r →
       r.effects ≠ [] →
       pyEqStrOpt (dictLookup submission "workflow_state") "submitted" = true) := by
  constructor
  · intro download dirExists folderPath submission hstate
    rw [processSubmission]
    rw [hstate]
    rfl
  · intro download dirExists folderPath submission r h hne
    by_cases hstate : pyEqStrOpt (dictLookup submission "workflow_state") "submitted" = true
    · exact hstate
    · exfalso
      rw [processSubmission] at h
      rw [Bool.not_eq_true] at hstate
      rw [hstate] at h
      simp at h
      rw [← h] at hne
      exact hne rfl

/-- Claim C3, counterexample: a `graded` submission carrying an attachment is
skipped (informational log, zero filesystem writes), refuting "downloaded iff
`submitted` or `graded`". -/
theorem graded_submission_not_materialized_cex :
    dictLookup gradedSubmission "workflow_state" = some (.str "graded") ∧
    dictLookup gradedSubmission "attachments" =
      some (.arr [.obj [("display_name", .str "hw.pdf"),
                        ("url", .str "https://files.example/1")]]) ∧
    processSubmission demoDownload noDirs "/tmp/subs" gradedSubmission =
      .ok { effects := []
            logs := [(LogLevel.info, "Skipping user ID 7 as they have not submitted.")] } :=
  ⟨rfl, rfl, rfl⟩

/-- Claim C3 witness: the amended theorem applied to the graded submission. -/
theorem materialize_only_submitted_witness :
    pyEqStrOpt (dictLookup gradedSubmission "workflow_state") "submitted" = false ∧
    processSubmission demoDownload noDirs "/tmp/subs" gradedSubmission =
      .ok { effects := []
            logs := [(LogLevel.info,
              "Skipping user ID " ++ pyStrOpt (dictLookup gradedSubmission "user_id") ++
              " as they have not submitted.")] } :=
  ⟨rfl, materialize_only_submitted.1 demoDownload noDirs "/tmp/subs" gradedSubmission rfl⟩

/-- Claim C4: for a chain of k pages each answering 200 and linked by the
relation literally named `next`, the pagination walk of `get_submissions`
returns exactly the concatenation of the pages' items in original order,
fetches exactly k times, and terminates at the page with no `next`. -/
theorem get_submissions_walks_chain (server : String → HttpResponse) (assignmentId : Int) :
    ∀ (rest : List String) (u : String) (fuel : Nat),
      chainB server (u :: rest) = true →
      (u :: rest).length ≤ fuel →
      getSubmissionsLoop server assignmentId fuel (some u) =
        .ok (((u :: rest).map (fun x => arrItems (server x).body)).flatten,
             (u :: rest).length) := by
  intro rest
  induction rest with
  | nil =>
    intro u fuel hch hlen
    rcases fuel with _ | fuel
    · simp at hlen
    · rw [chainB] at hch
      simp only [Bool.and_eq_true] at hch
      obtain ⟨⟨⟨⟨hne, hst⟩, harr⟩, hnext⟩, -⟩ := hch
      have hne2 : u.isEmpty = false := by simpa using hne
      have hnext2 : nextUrlOf (server u) = none := by simpa using hnext
      rcases hb : (server u).body with _ | b | n | q | s | data | o
      case arr =>
        rw [getSubmissionsLoop]
        dsimp only
        rw [if_neg (by simp [hne2])]
        rw [if_pos hst]
        rw [hb]
        rw [hnext2, getSubmissionsLoop_none]
        dsimp only
        simp [arrItems, hb]
      all_goals rw [hb] at harr; simp [isArrB] at harr
  | cons v rest ih =>
    intro u fuel hch hlen
    rcases fuel with _ | fuel
    · simp at hlen
    · rw [chainB] at hch
      simp only [Bool.and_eq_true] at hch
      obtain ⟨⟨⟨⟨hne, hst⟩, harr⟩, hnext⟩, hchain⟩ := hch
      have hne2 : u.isEmpty = false := by simpa using hne
      have hnext2 : nextUrlOf (server u) = some v := by simpa using hnext
      have hlen2 : (v :: rest).length ≤ fuel := by simp at hlen ⊢; omega
      have hrec := ih v fuel hchain hlen2
      rcases hb : (server u).body with _ | b | n | q | s | data | o
      case arr =>
        rw [getSubmissionsLoop]
        dsimp only
        rw [if_neg (by simp [hne2])]
        rw [if_pos hst]
        rw [hb]
        rw [hnext2, hrec]
        dsimp only
        simp [arrItems, hb]
      all_goals rw [hb] at harr; simp [isArrB] at harr

/-- Claim C4 witness: a concrete two-page server (with decoy `first`/`prev`
relations) yields the three items concatenated in order with two fetches. -/
theorem get_submissions_walks_chain_witness :
    chainB demoServer [demoUrl1, demoUrl2] = true ∧
    get_submissions demoServer 5 demoUrl1 5 = .ok ([.int 1, .int 2, .int 3], 2) := by
  refine ⟨by decide, ?_⟩
  have h := get_submissions_walks_chain demoServer 5 [demoUrl2] demoUrl1 5
    (by decide) (by decide)
  exact h.trans rfl

/-- Claim C5: when the identity resolves to a remote record whose `published`
flag is truthy, `add_assignment` aborts after the read: its only request is
the fetch (zero writes), it logs the abort reason, and it returns normally. -/
theorem upsert_locked_aborts_without_writes
    (assignment : List (String × JValue)) (groupId : Option JValue)
    (fetchResp putResp postResp : HttpResponse) (idv p : JValue)
    (efields : List (String × JValue))
    (hid : dictLookup assignment "id" = some idv)
    (hidT : pyTruthyJ idv = true)
    (hst : fetchResp.status = 200)
    (hbody : fetchResp.body = .obj efields)
    (hpub : dictLookup efields "published" = some p)
    (hpubT : pyTruthyJ p = true) :
    add_assignment assignment groupId fetchResp putResp postResp =
      { requests := [.fetch idv]
        logs := [(LogLevel.error,
          "Assignment '" ++ pyStrOpt (dictLookup assignment "name") ++
          "' is already published. Aborting...")]
        outcome := .returned } ∧
    ∀ r ∈ (add_assignment assignment groupId fetchResp putResp postResp).requests,
      r.isWrite = false := by
  have hmain : add_assignment assignment groupId fetchResp putResp postResp =
      { requests := [.fetch idv]
        logs := [(LogLevel.error,
          "Assignment '" ++ pyStrOpt (dictLookup assignment "name") ++
          "' is already published. Aborting...")]
        outcome := .returned } := by
    rw [add_assignment]
    have hA1 : dictLookup
        (if pyTruthyOpt groupId = true
         then dictSet assignment "assignment_group_id" (groupId.getD JValue.null)
         else assignment) "id" = some idv := by
      split
      · rw [dictLookup_dictSet_ne assignment "id" "assignment_group_id" _ (by decide)]
        exact hid
      · exact hid
    have hA2 : dictLookup
        (if pyTruthyOpt groupId = true
         then dictSet assignment "assignment_group_id" (groupId.getD JValue.null)
         else assignment) "name" = dictLookup assignment "name" := by
      split
      · exact dictLookup_dictSet_ne assignment "name" "assignment_group_id" _ (by decide)
      · rfl
    simp only [hA1, hA2]
    have hT : pyTruthyOpt (some idv) = true := hidT
    rw [hT, if_pos rfl]
    rcases efields with _ | ⟨e0, erest⟩
    · simp [dictLookup] at hpub
    · have hfetch : get_single_assignment ((some idv).getD JValue.null) fetchResp =
          Except.ok (JValue.obj (e0 :: erest)) := by
        rw [get_single_assignment, hst, hbody]
        rfl
      rw [hfetch]
      have hTr : pyTruthyJ (JValue.obj (e0 :: erest)) = true := by
        simp [pyTruthyJ]
      dsimp only
      rw [hTr, if_pos rfl]
      rw [hpub]
      have hTp : pyTruthyOpt (some p) = true := hpubT
      rw [hTp, if_pos rfl]
      rfl
  refine ⟨hmain, ?_⟩
  rw [hmain]
  intro r hr
  simp only [List.mem_singleton] at hr
  subst hr
  rfl

/-- Claim C5 witness: the locked-abort theorem at a concrete published
record. -/
theorem upsert_locked_aborts_without_writes_witness :
    dictLookup exAssignment "id" = some (.int 5) ∧
    pyTruthyJ (.int 5) = true ∧
    respPublished.status = 200 ∧
    respPublished.body = .obj [("published", .bool true)] ∧
    (add_assignment exAssignment none respPublished respUnused respUnused =
      { requests := [.fetch (.int 5)]
        logs := [(LogLevel.error,
          "Assignment '" ++ pyStrOpt (dictLookup exAssignment "name") ++
          "' is already published. Aborting...")]
        outcome := .returned } ∧
     ∀ r ∈ (add_assignment exAssignment none respPublished respUnused respUnused).requests,
       r.isWrite = false) :=
  ⟨rfl, rfl, rfl, rfl,
   upsert_locked_aborts_without_writes exAssignment none respPublished respUnused respUnused
     (.int 5) (.bool true) [("published", .bool true)] rfl rfl rfl rfl rfl rfl⟩

/-- Claim C6: the grade pushed as `submission[posted_grade]` is exactly the
total computed by summing the `score` of every entry that has a `score` key,
and inserting an entry without a `score` key anywhere leaves that total
unchanged (excluded from the sum, not counted as zero). -/
theorem upload_total_is_filtered_sum :
    (∀ (sid aid : Int) (path : String) (resp : HttpResponse) (entries : List JValue)
        (t : Rat) (cps : List (String × QPVal)),
       computeTotalScore entries = .ok t →
       buildCriterionParams entries = .ok cps →
       (upload_graded_rubric (some (.arr entries)) sid aid path resp).requests =
         [(gradingUrl aid sid,
           [("rubric_assessment[user_id]", QPVal.int sid),
            ("rubric_assessment[assessment_type]", QPVal.str "grading"),
            ("submission[posted_grade]", QPVal.num t)] ++ cps)])
    ∧ (∀ (xs ys : List JValue) (efields : List (String × JValue)),
       dictLookup efields "score" = none →
       computeTotalScore (xs ++ JValue.obj efields :: ys) =
         computeTotalScore (xs ++ ys)) := by
  constructor
  · intro sid aid path resp entries t cps h1 h2
    rw [upload_graded_rubric, h1, h2]
    dsimp only
    split <;> rfl
  · intro xs ys efields h
    induction xs with
    | nil =>
      simp only [List.nil_append]
      rw [computeTotalScore]
      rw [h]
    | cons x rest ih =>
      simp only [List.cons_append]
      cases x with
      | obj f =>
        rw [computeTotalScore, computeTotalScore]
        rcases hs : dictLookup f "score" with _ | v <;> dsimp only
        · exact ih
        · rcases hf : pyFloat v with e | q
          · rfl
          · dsimp only
            rw [ih]
      | null => rfl
      | bool b => rfl
      | int n => rfl
      | num q => rfl
      | str s => rfl
      | arr l => rfl

/-- The total of the `[4, 0, 5]` fixture evaluates to 9. -/
theorem computeTotalScore_exThree : computeTotalScore exThree = .ok 9 := by
  have h : computeTotalScore exThree = .ok ((4 : Rat) + (0 + (5 + 0))) := rfl
  rw [h]
  norm_num

/-- Claim C6 witness: scores `[4, 0, 5]` plus a score-less entry total 9, and
the concrete upload posts 9 as the grade. -/
theorem upload_total_is_filtered_sum_witness :
    computeTotalScore (exThree ++ [entryNoScore]) = computeTotalScore (exThree ++ []) ∧
    buildCriterionParams exThree = .ok exThreeParams ∧
    (upload_graded_rubric (some (.arr exThree)) 7 11 "grading_rubric.json" resp200ok).requests =
      [(gradingUrl 11 7,
        [("rubric_assessment[user_id]", QPVal.int 7),
         ("rubric_assessment[assessment_type]", QPVal.str "grading"),
         ("submission[posted_grade]", QPVal.num 9)] ++ exThreeParams)] :=
  ⟨upload_total_is_filtered_sum.2 exThree [] entryNoScoreFields rfl,
   rfl,
   upload_total_is_filtered_sum.1 7 11 "grading_rubric.json" resp200ok exThree 9
     exThreeParams computeTotalScore_exThree rfl⟩

/-- Claim C7: a rubric with `title` and `total_points` but no `criteria`
section makes `validate_rubric` return immediately with `ok = false` and
exactly one message — no per-criterion or sum messages follow. -/
theorem validate_missing_criteria_stops_early
    (d : List (String × JValue))
    (h1 : dictContains d "title" = true)
    (h2 : dictContains d "total_points" = true)
    (h3 : dictLookup d "criteria" = none) :
    validateRubric d = .ok (false, [msgMissingCriteria]) := by
  simp [validateRubric, baseMsgs, h1, h2, h3]

/-- Claim C7 witness: the early-stop theorem at a concrete document. -/
theorem validate_missing_criteria_stops_early_witness :
    dictContains exC7doc "title" = true ∧
    dictContains exC7doc "total_points" = true ∧
    dictLookup exC7doc "criteria" = none ∧
    validateRubric exC7doc = .ok (false, [msgMissingCriteria]) :=
  ⟨rfl, rfl, rfl, validate_missing_criteria_stops_early exC7doc rfl rfl rfl⟩

/-- Claim C8: building the per-criterion payload reads `score` from every
entry unconditionally — it can succeed only when every entry carries a
`score` key — and when it raises (e.g. `KeyError: 'score'`) after the total
was already summed, the whole upload ends raised with zero remote requests. -/
theorem upload_requires_score_on_every_entry :
    (∀ (entries : List JValue) (cps : List (String × QPVal)),
       buildCriterionParams entries = .ok cps →
       ∀ c ∈ entries, ∃ fields, c = JValue.obj fields ∧
         (dictLookup fields "score").isSome = true)
    ∧ (∀ (entries : List JValue) (sid aid : Int) (path : String) (resp : HttpResponse)
        (t : Rat) (e : String),
       computeTotalScore entries = .ok t →
       buildCriterionParams entries = .error e →
       upload_graded_rubric (some (.arr entries)) sid aid path resp =
         { requests := [], logs := [], outcome := .raised e }) := by
  constructor
  · intro entries
    induction entries with
    | nil => intro cps h c hc; simp at hc
    | cons x rest ih =>
      intro cps h c hc
      cases x with
      | obj f =>
        rw [buildCriterionParams] at h
        (try dsimp only at h)
        rcases hcid : dictLookup f "criterion_id" with _ | cid <;> (try dsimp only at h)
        · simp [hcid] at h
        · rcases hsc : dictLookup f "score" with _ | sv <;> (try dsimp only at h)
          · simp [hcid, hsc] at h
          · rcases hf : pyFloat sv with e2 | q <;> (try dsimp only at h)
            · simp [hcid, hsc, hf] at h
            · rcases hq : criterionQueryParams cid f q with e3 | params <;> (try dsimp only at h)
              · simp [hcid, hsc, hf, hq] at h
              · rcases hrest : buildCriterionParams rest with e4 | rest2 <;> (try dsimp only at h)
                · simp [hcid, hsc, hf, hq, hrest] at h
                · rcases List.mem_cons.mp hc with hcx | hcx
                  · subst hcx
                    exact ⟨f, rfl, by rw [hsc]; rfl⟩
                  · exact ih rest2 hrest c hcx
      | null =>
        rw [buildCriterionParams] at h
        · exact absurd h (by simp)
        · exact fun rfields habs => JValue.noConfusion habs
      | bool b =>
        rw [buildCriterionParams] at h
        · exact absurd h (by simp)
        · exact fun rfields habs => JValue.noConfusion habs
      | int n =>
        rw [buildCriterionParams] at h
        · exact absurd h (by simp)
        · exact fun rfields habs => JValue.noConfusion habs
      | num q =>
        rw [buildCriterionParams] at h
        · exact absurd h (by simp)
        · exact fun rfields habs => JValue.noConfusion habs
      | str s =>
        rw [buildCriterionParams] at h
        · exact absurd h (by simp)
        · exact fun rfields habs => JValue.noConfusion habs
      | arr l =>
        rw [buildCriterionParams] at h
        · exact absurd h (by simp)
        · exact fun rfields habs => JValue.noConfusion habs
  · intro entries sid aid path resp t e h1 h2
    rw [upload_graded_rubric, h1, h2]

/-- Claim C8 witness: the `[4, 0, 5]` fixture plus one score-less entry sums
to 9, then the payload construction raises `KeyError: 'score'` and the upload
issues zero requests. -/
theorem upload_requires_score_on_every_entry_witness :
    computeTotalScore (exThree ++ [entryNoScore]) = .ok 9 ∧
    buildCriterionParams (exThree ++ [entryNoScore]) = .error "KeyError: 'score'" ∧
    upload_graded_rubric (some (.arr (exThree ++ [entryNoScore]))) 7 11
        "grading_rubric.json" resp200ok =
      { requests := [], logs := [], outcome := .raised "KeyError: 'score'" } := by
  have htotal : computeTotalScore (exThree ++ [entryNoScore]) = .ok 9 := by
    have h0 : computeTotalScore (exThree ++ [entryNoScore]) =
        .ok ((4 : Rat) + (0 + (5 + 0))) := rfl
    rw [h0]
    norm_num
  exact ⟨htotal, rfl,
    upload_requires_score_on_every_entry.2 (exThree ++ [entryNoScore]) 7 11
      "grading_rubric.json" resp200ok 9 "KeyError: 'score'" htotal rfl⟩

/-- Claim C9: when the graded-rubric file does not exist, the upload logs a
warning naming the student and returns — zero remote requests, no raise. -/
theorem upload_missing_file_is_noop (sid aid : Int) (path : String) (resp : HttpResponse) :
    upload_graded_rubric none sid aid path resp =
      { requests := []
        logs := [(LogLevel.warning,
          "⚠️ Graded rubric not found for student " ++ toString sid ++ ".")]
        outcome := .returned } := rfl

/-- Claim C10: a criterion's contribution to the running total of
`validate_rubric` is never negative, because the per-criterion maximum starts
at 0 and only grows. -/
theorem criterion_contribution_nonneg (c : JValue) (msgs : List String) (pts : Int)
    (h : criterionMessages c = .ok (msgs, pts)) : 0 ≤ pts :=
  (criterionMessages_ok c msgs pts h).2

/-- Claim C10 witness: a criterion whose only valid rating has points −5
contributes 0, not −5. -/
theorem criterion_contribution_nonneg_witness :
    criterionMessages exNegCriterion = .ok ([], 0) ∧ (0 : Int) ≤ 0 :=
  ⟨rfl, criterion_contribution_nonneg exNegCriterion [] 0 rfl⟩
